import Mathlib

/-!
Verification of the turnstile-server ticket-verification core.

The embedding follows the source closely:
* `src/services/tickets.js` (`Tickets` class) gives `verifyToken`,
  the individual check helpers and `verifyTicket`;
* `src/controllers/EventController.js` gives `setEventStore`;
* `src/util/worker.js` gives `processJob`;
* the cache layer (`src/util/cache.js` over Redis) is modelled as a
  string-valued key/value store plus string-valued hashes, which is the
  CacheStore contract stated in the specification (§6: `get -> optional
  string`, `hGetAll -> mapping<string,string>`) and is what Redis provides.

Because the store holds strings, the JavaScript expressions of the service
(`attendeesCount + 1`, `count >= event.max_capacity`, property access on
decoded hashes) are modelled with their ECMAScript semantics on the value
shapes that actually occur: string/number addition, the abstract relational
comparison (string-string comparisons are lexicographic, otherwise both
sides go through ToNumber with NaN comparing false), and absent properties
reading as `undefined`.
-/

namespace Turnstile

/-- JavaScript runtime values as they occur in the verification path:
strings (everything read back from Redis), integral numbers, and
`undefined` (absent object properties / missing arguments). -/
inductive JSVal where
  | str (s : String)
  | num (n : Int)
  | undefVal
deriving DecidableEq, Repr

/-- JS `ToString` on the values above (`String(v)`). -/
def jsToString : JSVal → String
  | .str s => s
  | .num n => toString n
  | .undefVal => "undefined"

/-- Decimal digit value of a character, `none` for a non-digit. -/
def digitVal (c : Char) : Option Nat :=
  if '0' ≤ c ∧ c ≤ '9' then some (c.toNat - '0'.toNat) else none

/-- Parse a non-empty run of decimal digits (accumulator style); `none` as
soon as a non-digit appears. -/
def parseDigits : List Char → Nat → Option Nat
  | [], acc => some acc
  | c :: cs, acc =>
    match digitVal c with
    | some d => parseDigits cs (acc * 10 + d)
    | none => none

/-- ECMAScript StringToNumber restricted to the shapes that occur here:
the empty string is `0`, an optionally minus-signed decimal numeral parses
to its value, anything else is NaN (`none`). -/
def strToNumber (s : String) : Option Int :=
  match s.data with
  | [] => some 0
  | '-' :: rest =>
    match rest with
    | [] => none
    | _ => (parseDigits rest 0).map (fun n => -(n : Int))
  | l => (parseDigits l 0).map (fun n => (n : Int))

/-- JS `ToNumber`, with `none` standing for `NaN`: numbers are themselves,
`undefined` is NaN, and strings go through `strToNumber`. -/
def jsToNumber : JSVal → Option Int
  | .num n => some n
  | .undefVal => none
  | .str s => strToNumber s

/-- Lexicographic (code-unit) strict order on character lists, as in the
ECMAScript abstract relational comparison of two strings. -/
def charListLt : List Char → List Char → Bool
  | [], [] => false
  | [], _ :: _ => true
  | _ :: _, [] => false
  | a :: as, b :: bs => if a < b then true else if b < a then false else charListLt as bs

/-- JS `+` on the shapes that occur: if either operand is a string the
result is string concatenation of the `ToString`s, two numbers add. -/
def jsAdd : JSVal → JSVal → JSVal
  | .str a, b => .str (a ++ jsToString b)
  | a, .str b => .str (jsToString a ++ b)
  | .num a, .num b => .num (a + b)
  | _, _ => .undefVal

/-- JS `a >= b` (the abstract relational comparison): when both operands
are strings the comparison is lexicographic on code units; otherwise both
sides are converted with `ToNumber` and a NaN operand makes the comparison
false. -/
def jsGE (a b : JSVal) : Bool :=
  match a, b with
  | .str x, .str y => !charListLt x.data y.data
  | a, b =>
    match jsToNumber a, jsToNumber b with
    | some x, some y => decide (y ≤ x)
    | _, _ => false

/-- JS truthiness of a Redis `GET` result: `null` and the empty string are
falsy, every other string is truthy. -/
def truthy : Option String → Bool
  | none => false
  | some s => s ≠ ""

/-- Model of `await cache.get('current_attendees_count') || 0`: a missing key (and
the falsy empty string) falls back to the number `0`; any other stored
string passes through as a string. -/
def getOrZero : Option String → JSVal
  | none => .num 0
  | some s => if s = "" then .num 0 else .str s

/-- Association-list lookup (first binding wins; the update functions keep
keys unique). -/
def alGet {α : Type} : List (String × α) → String → Option α
  | [], _ => none
  | (k', v) :: t, k => if k' = k then some v else alGet t k

/-- Association-list upsert: replace the binding of `k` or append it. -/
def alSet {α : Type} : List (String × α) → String → α → List (String × α)
  | [], k, v => [(k, v)]
  | (k', v') :: t, k, v =>
    if k' = k then (k, v) :: t else (k', v') :: alSet t k v

/-- Association-list delete. -/
def alDel {α : Type} : List (String × α) → String → List (String × α)
  | [], _ => []
  | (k', v') :: t, k => if k' = k then alDel t k else (k', v') :: alDel t k

/-- The shared Redis store: flat string keys (`GET`/`SET`/`DEL`) and hash
keys (`HGETALL`/`HSET`).  Redis stores only strings, matching the spec's
CacheStore contract (§6). -/
structure Store where
  kv : List (String × String)
  hashes : List (String × List (String × String))
deriving DecidableEq, Repr

/-- Model of `cache.get key`. -/
def kvGet (s : Store) (k : String) : Option String := alGet s.kv k

/-- Model of `cache.set key value` (a TTL only bounds staleness; presence is what
the verification logic observes, so TTLs are not tracked). -/
def kvSet (s : Store) (k v : String) : Store := { s with kv := alSet s.kv k v }

/-- Model of `cache.del key`. -/
def kvDel (s : Store) (k : String) : Store := { s with kv := alDel s.kv k }

/-- Model of `cache.hGetAll key`: the stored field map, `none` when the key is
absent (spec §6 `mapping<string,string> | empty`, §4.2 `Event | NotFound`). -/
def hGetAllS (s : Store) (k : String) : Option (List (String × String)) :=
  alGet s.hashes k

/-- Model of `cache.hSet key fields`: Redis `HSET` upserts each given field into the
(possibly absent) hash. -/
def hSetS (s : Store) (k : String) (fields : List (String × String)) : Store :=
  let old := (alGet s.hashes k).getD []
  { s with hashes := alSet s.hashes k (fields.foldl (fun m fv => alSet m fv.1 fv.2) old) }

/-- The decoded JWT payload (spec §4.1 Claims): ticket id, event id,
issuer, and the validity timestamp (`new Date(x).getTime()` modelled as the
integral timestamp itself). -/
structure Claims where
  ticket_id : String
  event_id : String
  issuer : String
  valid_until : Int
deriving DecidableEq, Repr

/-- A JWT token string as seen by `jsonwebtoken.verify` under the server's
secret: it verifies to some claims, is expired, or is otherwise invalid. -/
inductive Token where
  | signed (c : Claims)
  | expiredTok
  | malformed
deriving DecidableEq, Repr

/-- A queued verification job's payload (`{token, deviceKey, scanTime}`,
spec §4.6/§6). -/
structure JobPayload where
  token : Token
  deviceKey : String
  scanTime : String
deriving DecidableEq, Repr

/-- What actually gets passed in the `token` position of
`Tickets.verifyTicket`: either a token string, or (on the worker path,
`src/util/worker.js` line 14) the whole payload object. -/
inductive TokenArg where
  | tok (t : Token)
  | payloadObj (p : JobPayload)
deriving DecidableEq, Repr

/-- The typed rejections of the verification state machine (spec §7). -/
inductive VErr where
  | noActiveEvent
  | tokenExpired
  | tokenInvalid
  | issuerMismatch
  | ticketExpired
  | eventMismatch
  | blacklisted
  | revoked
  | concurrentProcessing
  | eventFull
  | alreadyInside
  | maxEntriesReached
  | ticketInvalidOrRevoked
deriving DecidableEq, Repr

/-- Model of `Tickets.verifyToken` (tickets.js lines 25-35) over the jsonwebtoken
contract: an expired token maps to `TokenExpired`, every other failure —
including a non-string argument such as the worker's payload object — maps
to `TokenInvalid`. -/
def verifyToken : TokenArg → Except VErr Claims
  | .tok (.signed c) => .ok c
  | .tok .expiredTok => .error .tokenExpired
  | .tok .malformed => .error .tokenInvalid
  | .payloadObj _ => .error .tokenInvalid

/-- An in-memory JS object (a record under construction / read back from a
hash): string keys to JS values. -/
abbrev JRec := List (String × JSVal)

/-- JS property read: absent properties are `undefined`. -/
def jrGet (r : JRec) (k : String) : JSVal := (alGet r k).getD .undefVal

/-- JS property assignment. -/
def jrSet (r : JRec) (k : String) (v : JSVal) : JRec := alSet r k v

/-- What `cache.hSet` persists of a JS object: every field value as its
string form (Redis hashes hold strings). -/
def stringifyRec (r : JRec) : List (String × String) :=
  r.map (fun p => (p.1, jsToString p.2))

/-- A hash field read as a JS value (`event.max_capacity`,
`checkValidity.entry_count`, ...): present fields are strings, absent
fields are `undefined`. -/
def hField (h : List (String × String)) (k : String) : JSVal :=
  match alGet h k with
  | some s => .str s
  | none => .undefVal

/-- The fresh ticket record built on first entry (tickets.js lines
153-160): the spread of the decoded claims plus `status: 'valid'`,
`scanned` (the scan time from the request), `device_id`, `entry_status:
'in'`, and the number `1` as `entry_count`. -/
def freshTicketRecord (c : Claims) (deviceKey time : JSVal) : JRec :=
  [("ticket_id", .str c.ticket_id), ("event_id", .str c.event_id),
   ("issuer", .str c.issuer), ("valid_until", .num c.valid_until),
   ("status", .str "valid"), ("scanned", time), ("device_id", deviceKey),
   ("entry_status", .str "in"), ("entry_count", .num 1)]

deriving instance DecidableEq for Except

/-- The outcome of the `try` block of `Tickets.verifyTicket` plus the data
the `finally` clause needs: the decision, the store as the block left it,
and the decoded ticket id when `decode` was assigned. -/
structure Attempt where
  result : Except VErr JRec
  store : Store
  decoded : Option String
deriving DecidableEq, Repr

/-- The `try` block of `Tickets.verifyTicket` (tickets.js lines 117-195),
step for step: load `current_event`; decode the token; validate issuer,
ticket expiry and event id; check the blacklist, revocation and lock keys;
set the lock; compare the attendee count with `event.max_capacity`; then
resolve the ticket record (`iss` is `process.env.ISS`, `now` is
`Date.now()`). -/
def verifyTicketBody (iss : String) (now : Int) (tokArg : TokenArg)
    (deviceKey time : JSVal) (s0 : Store) : Attempt :=
  match hGetAllS s0 "current_event" with
  | none => ⟨.error .noActiveEvent, s0, none⟩
  | some ev =>
    match verifyToken tokArg with
    | .error e => ⟨.error e, s0, none⟩
    | .ok c =>
      let tid := c.ticket_id
      if c.issuer ≠ iss then ⟨.error .issuerMismatch, s0, some tid⟩
      else if c.valid_until < now then ⟨.error .ticketExpired, s0, some tid⟩
      else if alGet ev "id" ≠ some c.event_id then ⟨.error .eventMismatch, s0, some tid⟩
      else if truthy (kvGet s0 ("blacklist:" ++ tid)) then ⟨.error .blacklisted, s0, some tid⟩
      else if truthy (kvGet s0 ("revoked:" ++ tid)) then ⟨.error .revoked, s0, some tid⟩
      else if truthy (kvGet s0 ("lock:" ++ tid)) then ⟨.error .concurrentProcessing, s0, some tid⟩
      else
        let s1 := kvSet s0 ("lock:" ++ tid) tid
        let cnt := getOrZero (kvGet s1 "current_attendees_count")
        if jsGE cnt (hField ev "max_capacity") then ⟨.error .eventFull, s1, some tid⟩
        else
          let trec := (hGetAllS s1 ("ticket:" ++ tid)).getD []
          if trec.isEmpty then
            let newTicketData := freshTicketRecord c deviceKey time
            let s2 := hSetS s1 ("ticket:" ++ tid) (stringifyRec newTicketData)
            let s3 := kvSet s2 "current_attendees_count" (jsToString (jsAdd cnt (.num 1)))
            ⟨.ok newTicketData, s3, some tid⟩
          else
            let rv : JRec := trec.map (fun p => (p.1, JSVal.str p.2))
            if jrGet rv "status" = .str "valid" then
              if jrGet rv "entry_status" = .str "in" then
                ⟨.error .alreadyInside, s1, some tid⟩
              else if jsGE (jrGet rv "entry_count") (hField ev "max_entries") then
                ⟨.error .maxEntriesReached, s1, some tid⟩
              else
                let upd := jrSet (jrSet rv "entry_status" (.str "in"))
                  "entry_count" (jsAdd (jrGet rv "entry_count") (.num 1))
                let s2 := hSetS s1 ("ticket:" ++ jsToString (jrGet upd "ticket_id"))
                  (stringifyRec upd)
                let s3 := kvSet s2 "current_attendees_count" (jsToString (jsAdd cnt (.num 1)))
                ⟨.ok upd, s3, some tid⟩
            else ⟨.error .ticketInvalidOrRevoked, s1, some tid⟩

/-- The `finally` clause of `Tickets.verifyTicket` (tickets.js lines
199-204): whatever the `try` block produced — decision, typed rejection,
or any fault a store operation might have raised mid-block — delete
`lock:<ticket_id>` exactly when `decode` was assigned; the outcome
propagates unchanged. -/
def finallyRelease (a : Attempt) : Except VErr JRec × Store :=
  match a.decoded with
  | some tid => (a.result, kvDel a.store ("lock:" ++ tid))
  | none => (a.result, a.store)

/-- Model of `Tickets.verifyTicket` (tickets.js lines 117-205): the `try` body
followed by the `finally` clause. -/
def verifyTicket (iss : String) (now : Int) (tokArg : TokenArg)
    (deviceKey time : JSVal) (s0 : Store) : Except VErr JRec × Store :=
  finallyRelease (verifyTicketBody iss now tokArg deviceKey time s0)

/-- Store effect of `EventController.setEvent` (EventController.js lines
36-44): `hSet('current_event', {id, name, max_capacity, validity})`.  Note
that no `max_entries` field is ever stored. -/
def setEventStore (event_id event_name capacity event_validity : String)
    (s : Store) : Store :=
  hSetS s "current_event"
    [("id", event_id), ("name", event_name), ("max_capacity", capacity),
     ("validity", event_validity)]

/-- The JobQueue worker (worker.js lines 11-15): it calls
`Tickets.verifyTicket(job.data)` — the whole payload object in the `token`
position, with `deviceKey` and `time` left `undefined`. -/
def processJob (iss : String) (now : Int) (p : JobPayload) (s : Store) :
    Except VErr JRec × Store :=
  verifyTicket iss now (.payloadObj p) .undefVal .undefVal s

/-- Direct invocation of the engine with a payload's three fields, the way
`VerificationController.verifyTicket` calls it. -/
def verifyPayloadDirect (iss : String) (now : Int) (p : JobPayload) (s : Store) :
    Except VErr JRec × Store :=
  verifyTicket iss now (.tok p.token) (.str p.deviceKey) (.str p.scanTime) s

/-- Holds exactly on an ADMIT decision. -/
def isAdmit (r : Except VErr JRec) : Bool :=
  match r with
  | .ok _ => true
  | .error _ => false

/-!
A minimal interleaving model of the lock-acquisition phase for two
concurrent attempts on the same ticket (spec §8, tickets.js lines 100-105
and 137-140).  Each attempt performs two separate awaited store commands:
first `cache.get('lock:<id>')` (rejecting with ConcurrentProcessing when
the key is truthy), then `cache.set('lock:<id>', id, {ttl: 30})`.  Await
boundaries are the interleaving points, so a scheduler chooses which
attempt runs its next command.
-/

/-- Where an attempt stands in its acquisition phase: about to run the
lock check, about to run the lock set, past acquisition, or rejected with
ConcurrentProcessing. -/
inductive AcqPhase where
  | toCheck
  | toSet
  | acquired
  | rejected
deriving DecidableEq, Repr

/-- Joint state of the lock key and the two attempts. -/
structure AcqState where
  lockHeld : Bool
  attemptA : AcqPhase
  attemptB : AcqPhase
deriving DecidableEq, Repr

/-- One attempt executes its next store command against the lock key:
the check reads the key (rejecting when held), the set writes it. -/
def acqStep (ph : AcqPhase) (lockHeld : Bool) : AcqPhase × Bool :=
  match ph with
  | .toCheck => if lockHeld then (.rejected, lockHeld) else (.toSet, lockHeld)
  | .toSet => (.acquired, true)
  | p => (p, lockHeld)

/-- The scheduler runs one command of attempt A (`true`) or B (`false`). -/
def schedStep (s : AcqState) (who : Bool) : AcqState :=
  if who then
    let pr := acqStep s.attemptA s.lockHeld
    ⟨pr.2, pr.1, s.attemptB⟩
  else
    let pr := acqStep s.attemptB s.lockHeld
    ⟨pr.2, s.attemptA, pr.1⟩

/-- Run a whole schedule. -/
def runSched : List Bool → AcqState → AcqState
  | [], s => s
  | w :: ws, s => runSched ws (schedStep s w)

/-- Modelled from the spec: the LockManager contract of §4.3, `acquire` as
a SINGLE atomic set-if-absent.  Returns whether the lock was newly taken,
and the lock state afterwards.  (The repository's code has no such atomic
acquire; this definition exists only to contrast the spec's contract with
the two-command sequence of tickets.js.) -/
def atomicAcquire (lockHeld : Bool) : Bool × Bool :=
  if lockHeld then (false, true) else (true, true)

/-!  Concrete fixtures shared by several theorems: an event set through
`EventController.setEvent` and a gate issuing tokens for it. -/

/-- The store before any administrative call. -/
def emptyStore : Store := ⟨[], []⟩

/-- Token for ticket `i` of event `E1`, issued by `iss1`, valid until 200
(all attempts below run at `now = 100`). -/
def gateTok (i : String) : TokenArg := .tok (.signed ⟨i, "E1", "iss1", 200⟩)

/-- Store after `setEvent` with capacity `100`. -/
def storeCap100 : Store := setEventStore "E1" "GALA" "100" "2099" emptyStore

/-- Store after `setEvent` with capacity `5`. -/
def storeCap5 : Store := setEventStore "E1" "GALA" "5" "2099" emptyStore

/-- First admission (ticket `T1`) against the capacity-100 event. -/
def admit1Cap100 : Except VErr JRec × Store :=
  verifyTicket "iss1" 100 (gateTok "T1") (.str "D1") (.str "10") storeCap100

/-- Second admission (ticket `T2`) against the capacity-100 event. -/
def admit2Cap100 : Except VErr JRec × Store :=
  verifyTicket "iss1" 100 (gateTok "T2") (.str "D1") (.str "11") admit1Cap100.2

/-- Third attempt (fresh ticket `T3`) against the capacity-100 event. -/
def attempt3Cap100 : Except VErr JRec × Store :=
  verifyTicket "iss1" 100 (gateTok "T3") (.str "D1") (.str "12") admit2Cap100.2

/-- First admission against the capacity-5 event. -/
def admit1Cap5 : Except VErr JRec × Store :=
  verifyTicket "iss1" 100 (gateTok "T1") (.str "D1") (.str "10") storeCap5

/-- Second admission against the capacity-5 event. -/
def admit2Cap5 : Except VErr JRec × Store :=
  verifyTicket "iss1" 100 (gateTok "T2") (.str "D1") (.str "11") admit1Cap5.2

/-- Store holding an event created by `setEvent` and a ticket record for
`T9` that is valid, currently outside, with `entry_count` `"3"`. -/
def reentryStore : Store :=
  hSetS storeCap100 "ticket:T9"
    [("ticket_id", "T9"), ("status", "valid"), ("entry_status", "out"), ("entry_count", "3")]

/-- Re-entry attempt for `T9`. -/
def reentryAttempt : Except VErr JRec × Store :=
  verifyTicket "iss1" 100 (gateTok "T9") (.str "D1") (.str "10") reentryStore

/-- A store in which another attempt's lock for `T1` is in flight and no
current event is configured. -/
def heldLockNoEventStore : Store := ⟨[("lock:T1", "T1")], []⟩

/-- The attempt on `T1` against that store. -/
def preDecodeAttempt : Except VErr JRec × Store :=
  verifyTicket "iss1" 100 (gateTok "T1") (.str "D1") (.str "10") heldLockNoEventStore

/-- A well-formed verification job payload for ticket `T1`. -/
def gatePayload : JobPayload := ⟨.signed ⟨"T1", "E1", "iss1", 200⟩, "D1", "10"⟩

/-- The capacity-100 store with a lock for `T1` already in flight (as left
by a concurrent attempt between its lock write and its release). -/
def heldLockStoreC8 : Store := kvSet storeCap100 "lock:T1" "T1"

/-!  Small facts about the association-list store. -/

theorem alGet_alSet_self {α : Type} (l : List (String × α)) (k : String) (v : α) :
    alGet (alSet l k v) k = some v := by
  induction l with
  | nil => simp [alGet, alSet]
  | cons p t ih =>
    by_cases h : p.1 = k
    · simp [alSet, alGet, h]
    · simp [alSet, alGet, h, ih]

theorem alGet_alSet_ne {α : Type} (l : List (String × α)) {k k' : String} (v : α)
    (h : k' ≠ k) : alGet (alSet l k v) k' = alGet l k' := by
  induction l with
  | nil => simp [alGet, alSet, Ne.symm h]
  | cons p t ih =>
    by_cases hp : p.1 = k
    · simp [alSet, alGet, hp, Ne.symm h]
    · simp only [alSet, hp, if_false]
      by_cases hq : p.1 = k'
      · simp [alGet, hq]
      · simp [alGet, hq, ih]

theorem alGet_alDel_self {α : Type} (l : List (String × α)) (k : String) :
    alGet (alDel l k) k = none := by
  induction l with
  | nil => simp [alGet, alDel]
  | cons p t ih =>
    by_cases h : p.1 = k
    · simp [alDel, h, ih]
    · simp [alDel, alGet, h, ih]

theorem alGet_alDel_ne {α : Type} (l : List (String × α)) {k k' : String}
    (h : k' ≠ k) : alGet (alDel l k) k' = alGet l k' := by
  induction l with
  | nil => simp [alDel]
  | cons p t ih =>
    by_cases hp : p.1 = k
    · subst hp
      simp [alDel, alGet, Ne.symm h, ih]
    · simp only [alDel, hp, if_false]
      by_cases hq : p.1 = k'
      · simp [alGet, hq]
      · simp [alGet, hq, ih]

/-- The lock key of any ticket differs from the attendee-counter key. -/
theorem lock_key_ne_counter_key (t : String) :
    ("lock:" ++ t) ≠ "current_attendees_count" := by
  intro h
  have h2 : (("lock:" ++ t).data).head? = ("current_attendees_count".data).head? := by
    rw [h]
  have h3 : (("lock:" ++ t).data).head? = some 'l' := rfl
  have h4 : ("current_attendees_count".data).head? = some 'c' := by rfl
  rw [h3, h4] at h2
  exact absurd (Option.some.inj h2) (by decide)

theorem kvGet_kvSet_self (s : Store) (k v : String) :
    kvGet (kvSet s k v) k = some v := alGet_alSet_self _ _ _

theorem kvGet_kvSet_ne (s : Store) {k k' : String} (v : String) (h : k' ≠ k) :
    kvGet (kvSet s k v) k' = kvGet s k' := alGet_alSet_ne _ _ h

theorem kvGet_kvDel_self (s : Store) (k : String) :
    kvGet (kvDel s k) k = none := alGet_alDel_self _ _

theorem kvGet_kvDel_ne (s : Store) {k k' : String} (h : k' ≠ k) :
    kvGet (kvDel s k) k' = kvGet s k' := alGet_alDel_ne _ h

theorem hashes_kvSet (s : Store) (k v : String) : (kvSet s k v).hashes = s.hashes := rfl

theorem hashes_kvDel (s : Store) (k : String) : (kvDel s k).hashes = s.hashes := rfl

theorem kv_hSetS (s : Store) (k : String) (f : List (String × String)) :
    (hSetS s k f).kv = s.kv := rfl

theorem hGetAllS_hSetS_self (s : Store) (k : String) (f : List (String × String)) :
    hGetAllS (hSetS s k f) k =
      some (f.foldl (fun m fv => alSet m fv.1 fv.2) ((alGet s.hashes k).getD [])) :=
  alGet_alSet_self _ _ _

theorem hGetAllS_kvSet (s : Store) (k v : String) (k' : String) :
    hGetAllS (kvSet s k v) k' = hGetAllS s k' := rfl

theorem hGetAllS_kvDel (s : Store) (k : String) (k' : String) :
    hGetAllS (kvDel s k) k' = hGetAllS s k' := rfl



/-- C2: after `setEvent` with capacity 5 and two admissions of fresh
tickets — a store state reachable through the public API — the second
attempt returns ADMIT yet leaves the stored AttendeeCounter at the string
`"11"` (numeric 11 > 5): `attendeesCount + 1` concatenates the string read
back from the store instead of incrementing it, so the counter exceeds
`max_capacity` immediately after an ADMIT decision. -/
theorem attendee_counter_exceeds_capacity_after_admission :
    isAdmit admit1Cap5.1 = true ∧
    isAdmit admit2Cap5.1 = true ∧
    kvGet admit2Cap5.2 "current_attendees_count" = some "11" ∧
    alGet ((hGetAllS admit2Cap5.2 "current_event").getD []) "max_capacity" = some "5" ∧
    jsToNumber (.str "11") = some 11 ∧
    jsToNumber (.str "5") = some 5 ∧
    ¬ (11 : Int) ≤ 5 := by decide

/-- C3: on the second admission against the capacity-100 event the
capacity check reads the counter as `"1"` (numeric 1), the attempt
returns ADMIT, and the stored counter afterwards is `"11"` (numeric 11),
not `1 + 1 = 2`: the write is string concatenation, not an increment. -/
theorem counter_concatenated_not_incremented :
    kvGet admit1Cap100.2 "current_attendees_count" = some "1" ∧
    isAdmit admit2Cap100.1 = true ∧
    kvGet admit2Cap100.2 "current_attendees_count" = some "11" ∧
    jsToNumber (.str "1") = some 1 ∧
    jsToNumber (.str "11") = some 11 ∧
    (11 : Int) ≠ 1 + 1 := by decide

/-- C4: an attempt that reaches the capacity check with the stored counter
`"11"` and `max_capacity` `"100"` fails with EventFull even though the
numeric count 11 is strictly below the numeric capacity 100: both operands
of `attendeesCount >= event.max_capacity` are strings read from the store,
so JavaScript compares them lexicographically (`"11" >= "100"` is true). -/
theorem capacity_check_lexicographic_rejects_below_capacity :
    kvGet admit2Cap100.2 "current_attendees_count" = some "11" ∧
    alGet ((hGetAllS admit2Cap100.2 "current_event").getD []) "max_capacity" = some "100" ∧
    attempt3Cap100.1 = .error .eventFull ∧
    jsToNumber (.str "11") = some 11 ∧
    jsToNumber (.str "100") = some 100 ∧
    (11 : Int) < 100 := by decide

/-- C1 counterexample: the third attempt against the capacity-100 event
satisfies every condition of the claim — current event exists, the token
verifies with matching issuer/expiry/event id, ticket `T3` is neither
blacklisted nor revoked and holds no lock, no ticket record exists for it,
and the attendee count (11) is numerically below `max_capacity` (100) —
yet `verifyTicket` returns EventFull instead of the claimed ADMIT. -/
theorem fresh_ticket_below_capacity_rejected :
    hGetAllS admit2Cap100.2 "current_event" =
      some [("id", "E1"), ("name", "GALA"), ("max_capacity", "100"), ("validity", "2099")] ∧
    kvGet admit2Cap100.2 "blacklist:T3" = none ∧
    kvGet admit2Cap100.2 "revoked:T3" = none ∧
    kvGet admit2Cap100.2 "lock:T3" = none ∧
    hGetAllS admit2Cap100.2 "ticket:T3" = none ∧
    kvGet admit2Cap100.2 "current_attendees_count" = some "11" ∧
    jsToNumber (.str "11") = some 11 ∧ (11 : Int) < 100 ∧
    attempt3Cap100.1 = .error .eventFull ∧
    isAdmit attempt3Cap100.1 = false := by decide


/-- C5: events written by `EventController.setEvent` carry no
`max_entries` field, so `checkValidity.entry_count >= event.max_entries`
compares against `undefined` and is always false: the re-entry attempt
with `entry_count` `"3"` is admitted instead of failing MaxEntriesReached,
and the `entry_count += 1` update stores `"31"` (string concatenation),
not `3 + 1 = 4`. -/
theorem max_entries_check_never_fires :
    alGet ((hGetAllS reentryStore "current_event").getD []) "max_entries" = none ∧
    alGet ((hGetAllS reentryStore "ticket:T9").getD []) "status" = some "valid" ∧
    alGet ((hGetAllS reentryStore "ticket:T9").getD []) "entry_status" = some "out" ∧
    alGet ((hGetAllS reentryStore "ticket:T9").getD []) "entry_count" = some "3" ∧
    reentryAttempt.1 ≠ .error .maxEntriesReached ∧
    isAdmit reentryAttempt.1 = true ∧
    alGet ((hGetAllS reentryAttempt.2 "ticket:T9").getD []) "entry_count" = some "31" ∧
    jsToNumber (.str "31") = some 31 ∧
    (31 : Int) ≠ 3 + 1 := by decide


/-- C6 counterexample: an attempt on a token whose claims carry ticket id
`T1` is rejected with NoActiveEvent before the token is decoded, and the
pre-existing key `lock:T1` is still present in the store after the attempt
completes — the `finally` clause only deletes the lock when `decode` was
assigned, so the claimed unconditional absence of `lock:<ticket_id>` after
every completed attempt is false. -/
theorem lock_survives_pre_decode_rejection :
    preDecodeAttempt.1 = .error .noActiveEvent ∧
    kvGet preDecodeAttempt.2 "lock:T1" = some "T1" := by decide

/-- C9: under the schedule that runs both attempts' lock checks before
either attempt's lock write — available because the check and the write
are two separately awaited store commands — BOTH attempts proceed past
AcquireLock and neither is rejected with ConcurrentProcessing, refuting
"exactly one proceeds".  The spec's own contract, a single atomic
set-if-absent (`atomicAcquire`), does grant the lock to exactly one of two
successive callers. -/
theorem nonatomic_lock_acquire_both_proceed :
    runSched [true, false, true, false] ⟨false, .toCheck, .toCheck⟩ =
      ⟨true, .acquired, .acquired⟩ ∧
    (atomicAcquire false).1 = true ∧
    (atomicAcquire (atomicAcquire false).2).1 = false := by decide


/-- C10: the worker passes the whole payload object in the `token`
position (`Tickets.verifyTicket(job.data)`), so `jwt.verify` rejects it
and the job ends in TokenInvalid, while the direct call with the payload's
three fields admits the same ticket: the two decisions differ. -/
theorem worker_payload_not_destructured :
    (processJob "iss1" 100 gatePayload storeCap100).1 = .error .tokenInvalid ∧
    isAdmit (verifyPayloadDirect "iss1" 100 gatePayload storeCap100).1 = true ∧
    (processJob "iss1" 100 gatePayload storeCap100).1 ≠
      (verifyPayloadDirect "iss1" 100 gatePayload storeCap100).1 := by decide

theorem kvGet_counter_kvSet_lock (s : Store) (t v : String) :
    kvGet (kvSet s ("lock:" ++ t) v) "current_attendees_count" =
      kvGet s "current_attendees_count" :=
  kvGet_kvSet_ne _ _ (Ne.symm (lock_key_ne_counter_key t))

theorem kvGet_counter_kvDel_lock (s : Store) (t : String) :
    kvGet (kvDel s ("lock:" ++ t)) "current_attendees_count" =
      kvGet s "current_attendees_count" :=
  kvGet_kvDel_ne _ (Ne.symm (lock_key_ne_counter_key t))

/-- C1 (amended to the fresh-counter case forced by the capacity-check
counterexample): when a current event exists, the token verifies with
matching issuer, expiry and event id, the ticket is neither blacklisted
nor revoked, no lock is held, the counter reads as the number 0 (key
absent or empty), the event's `max_capacity` is a positive numeral, and
no ticket record exists, `verifyTicket` returns ADMIT with a fresh record
whose `status` is `valid`, `entry_status` is `in`, `entry_count` is 1 and
whose `device_id` and `scanned` come from the request; the record is
persisted under `ticket:<ticket_id>`, the stored AttendeeCounter becomes
`"1"` (0 to 1), and the lock is gone afterwards. -/
theorem verifyTicket_first_entry_admitted
    (iss : String) (now : Int) (c : Claims) (dk tm : String) (s : Store)
    (ev : List (String × String)) (capStr : String) (m : Int)
    (hEv : hGetAllS s "current_event" = some ev)
    (hIss : c.issuer = iss)
    (hExp : ¬ c.valid_until < now)
    (hId : alGet ev "id" = some c.event_id)
    (hBl : kvGet s ("blacklist:" ++ c.ticket_id) = none)
    (hRv : kvGet s ("revoked:" ++ c.ticket_id) = none)
    (hLk : kvGet s ("lock:" ++ c.ticket_id) = none)
    (hCnt : getOrZero (kvGet s "current_attendees_count") = .num 0)
    (hCap : alGet ev "max_capacity" = some capStr)
    (hm : strToNumber capStr = some m)
    (hpos : 0 < m)
    (hTick : (hGetAllS s ("ticket:" ++ c.ticket_id)).getD [] = []) :
    (verifyTicket iss now (.tok (.signed c)) (.str dk) (.str tm) s).1 =
      .ok (freshTicketRecord c (.str dk) (.str tm)) ∧
    jrGet (freshTicketRecord c (.str dk) (.str tm)) "status" = .str "valid" ∧
    jrGet (freshTicketRecord c (.str dk) (.str tm)) "entry_status" = .str "in" ∧
    jrGet (freshTicketRecord c (.str dk) (.str tm)) "entry_count" = .num 1 ∧
    jrGet (freshTicketRecord c (.str dk) (.str tm)) "device_id" = .str dk ∧
    jrGet (freshTicketRecord c (.str dk) (.str tm)) "scanned" = .str tm ∧
    hGetAllS (verifyTicket iss now (.tok (.signed c)) (.str dk) (.str tm) s).2
      ("ticket:" ++ c.ticket_id) =
      some (stringifyRec (freshTicketRecord c (.str dk) (.str tm))) ∧
    kvGet (verifyTicket iss now (.tok (.signed c)) (.str dk) (.str tm) s).2
      "current_attendees_count" = some "1" ∧
    kvGet (verifyTicket iss now (.tok (.signed c)) (.str dk) (.str tm) s).2
      ("lock:" ++ c.ticket_id) = none := by
  have hnm : ¬ (m ≤ 0) := by omega
  have hcnt1 : kvGet (kvSet s ("lock:" ++ c.ticket_id) c.ticket_id)
      "current_attendees_count" = kvGet s "current_attendees_count" :=
    kvGet_counter_kvSet_lock s c.ticket_id c.ticket_id
  have hbody : verifyTicketBody iss now (.tok (.signed c)) (.str dk) (.str tm) s =
      ⟨.ok (freshTicketRecord c (.str dk) (.str tm)),
       kvSet
         (hSetS (kvSet s ("lock:" ++ c.ticket_id) c.ticket_id)
           ("ticket:" ++ c.ticket_id)
           (stringifyRec (freshTicketRecord c (.str dk) (.str tm))))
         "current_attendees_count" "1",
       some c.ticket_id⟩ := by
    unfold verifyTicketBody
    rw [hEv]
    simp [verifyToken, hIss, hExp, hId, hBl, hRv, hLk, truthy, hcnt1, hCnt,
      hField, hCap, jsGE, jsToNumber, hm, hnm, hGetAllS_kvSet, hTick, jsAdd,
      show jsToString (JSVal.num 1) = "1" from by decide]
  have hfr : verifyTicket iss now (.tok (.signed c)) (.str dk) (.str tm) s =
      (.ok (freshTicketRecord c (.str dk) (.str tm)),
       kvDel
         (kvSet
           (hSetS (kvSet s ("lock:" ++ c.ticket_id) c.ticket_id)
             ("ticket:" ++ c.ticket_id)
             (stringifyRec (freshTicketRecord c (.str dk) (.str tm))))
           "current_attendees_count" "1")
         ("lock:" ++ c.ticket_id)) := by
    unfold verifyTicket
    rw [hbody]
    rfl
  refine ⟨?_, rfl, rfl, rfl, rfl, rfl, ?_, ?_, ?_⟩
  · rw [hfr]
  · rw [hfr]
    show hGetAllS
        (hSetS (kvSet s ("lock:" ++ c.ticket_id) c.ticket_id)
          ("ticket:" ++ c.ticket_id)
          (stringifyRec (freshTicketRecord c (.str dk) (.str tm))))
        ("ticket:" ++ c.ticket_id) = _
    rw [hGetAllS_hSetS_self]
    show some ((stringifyRec (freshTicketRecord c (.str dk) (.str tm))).foldl
      (fun fm fv => alSet fm fv.1 fv.2)
      ((hGetAllS s ("ticket:" ++ c.ticket_id)).getD [])) = _
    rw [hTick]
    rfl
  · rw [hfr]
    show kvGet
        (kvDel
          (kvSet
            (hSetS (kvSet s ("lock:" ++ c.ticket_id) c.ticket_id)
              ("ticket:" ++ c.ticket_id)
              (stringifyRec (freshTicketRecord c (.str dk) (.str tm))))
            "current_attendees_count" "1")
          ("lock:" ++ c.ticket_id)) "current_attendees_count" = some "1"
    rw [kvGet_counter_kvDel_lock]
    exact kvGet_kvSet_self _ _ _
  · rw [hfr]
    exact kvGet_kvDel_self _ _

/-- Witness for the amended C1 theorem: ticket `T1`, fresh capacity-100
event, all hypotheses discharged by evaluation. -/
theorem verifyTicket_first_entry_admitted_witness :
    getOrZero (kvGet storeCap100 "current_attendees_count") = .num 0 ∧
    (hGetAllS storeCap100 ("ticket:" ++ "T1")).getD [] = [] ∧
    (verifyTicket "iss1" 100 (.tok (.signed ⟨"T1", "E1", "iss1", 200⟩))
        (.str "D1") (.str "10") storeCap100).1 =
      .ok (freshTicketRecord ⟨"T1", "E1", "iss1", 200⟩ (.str "D1") (.str "10")) ∧
    kvGet (verifyTicket "iss1" 100 (.tok (.signed ⟨"T1", "E1", "iss1", 200⟩))
        (.str "D1") (.str "10") storeCap100).2 "current_attendees_count" = some "1" :=
  have h := verifyTicket_first_entry_admitted "iss1" 100 ⟨"T1", "E1", "iss1", 200⟩
    "D1" "10" storeCap100
    [("id", "E1"), ("name", "GALA"), ("max_capacity", "100"), ("validity", "2099")]
    "100" 100 (by decide) rfl (by decide) (by decide) (by decide) (by decide)
    (by decide) (by decide) (by decide) (by decide) (by decide) (by decide)
  ⟨by decide, by decide, h.1, h.2.2.2.2.2.2.2.1⟩

/-- C6 (amended to attempts in which the token was decoded, as forced by
the pre-decode counterexample): whenever the `try` block assigned `decode`
— so on every ADMIT, on every typed rejection from IssuerMismatch
onwards, and structurally on any outcome the block hands to the `finally`
clause — the key `lock:<ticket_id>` is absent from the store immediately
after `verifyTicket` completes. -/
theorem lock_absent_after_decoded_attempt
    (iss : String) (now : Int) (tokArg : TokenArg) (deviceKey time : JSVal)
    (s : Store) (tid : String)
    (h : (verifyTicketBody iss now tokArg deviceKey time s).decoded = some tid) :
    kvGet (verifyTicket iss now tokArg deviceKey time s).2 ("lock:" ++ tid) = none := by
  unfold verifyTicket finallyRelease
  rw [h]
  exact kvGet_kvDel_self _ _

/-- Witness for the amended C6 theorem: a decoded, admitted attempt on
`T1` leaves no `lock:T1` behind. -/
theorem lock_absent_after_decoded_attempt_witness :
    (verifyTicketBody "iss1" 100 (gateTok "T1") (.str "D1") (.str "10")
        storeCap100).decoded = some "T1" ∧
    kvGet (verifyTicket "iss1" 100 (gateTok "T1") (.str "D1") (.str "10")
        storeCap100).2 ("lock:" ++ "T1") = none :=
  ⟨by decide,
   lock_absent_after_decoded_attempt "iss1" 100 (gateTok "T1") (.str "D1")
     (.str "10") storeCap100 "T1" (by decide)⟩

/-- Frame property of the `try` block: on every typed rejection the hash
side of the store (all `ticket:` records and `current_event`) and the
attendee counter are exactly as before the attempt; the only flat key the
block may have touched is the attempt's own lock key. -/
theorem body_error_frame
    (iss : String) (now : Int) (tokArg : TokenArg) (deviceKey time : JSVal)
    (s : Store) (e : VErr)
    (h : (verifyTicketBody iss now tokArg deviceKey time s).result = .error e) :
    (verifyTicketBody iss now tokArg deviceKey time s).store.hashes = s.hashes ∧
    kvGet (verifyTicketBody iss now tokArg deviceKey time s).store
      "current_attendees_count" = kvGet s "current_attendees_count" := by
  cases hev : hGetAllS s "current_event" with
  | none =>
    have hb : verifyTicketBody iss now tokArg deviceKey time s =
        ⟨.error .noActiveEvent, s, none⟩ := by
      unfold verifyTicketBody
      rw [hev]
    rw [hb]
    exact ⟨rfl, rfl⟩
  | some ev =>
    cases htok : verifyToken tokArg with
    | error e' =>
      have hb : verifyTicketBody iss now tokArg deviceKey time s = ⟨.error e', s, none⟩ := by
        unfold verifyTicketBody
        rw [hev, htok]
      rw [hb]
      exact ⟨rfl, rfl⟩
    | ok c =>
      by_cases h1 : c.issuer = iss
      · by_cases h2 : c.valid_until < now
        · have hb : verifyTicketBody iss now tokArg deviceKey time s =
              ⟨.error .ticketExpired, s, some c.ticket_id⟩ := by
            unfold verifyTicketBody
            rw [hev, htok]
            simp [h1, h2]
          rw [hb]
          exact ⟨rfl, rfl⟩
        · by_cases h3 : alGet ev "id" = some c.event_id
          · by_cases h4 : truthy (kvGet s ("blacklist:" ++ c.ticket_id)) = true
            · have hb : verifyTicketBody iss now tokArg deviceKey time s =
                  ⟨.error .blacklisted, s, some c.ticket_id⟩ := by
                unfold verifyTicketBody
                rw [hev, htok]
                simp [h1, h2, h3, h4]
              rw [hb]
              exact ⟨rfl, rfl⟩
            · by_cases h5 : truthy (kvGet s ("revoked:" ++ c.ticket_id)) = true
              · have hb : verifyTicketBody iss now tokArg deviceKey time s =
                    ⟨.error .revoked, s, some c.ticket_id⟩ := by
                  unfold verifyTicketBody
                  rw [hev, htok]
                  simp [h1, h2, h3, h4, h5]
                rw [hb]
                exact ⟨rfl, rfl⟩
              · by_cases h6 : truthy (kvGet s ("lock:" ++ c.ticket_id)) = true
                · have hb : verifyTicketBody iss now tokArg deviceKey time s =
                      ⟨.error .concurrentProcessing, s, some c.ticket_id⟩ := by
                    unfold verifyTicketBody
                    rw [hev, htok]
                    simp [h1, h2, h3, h4, h5, h6]
                  rw [hb]
                  exact ⟨rfl, rfl⟩
                · by_cases hcap : jsGE (getOrZero (kvGet s "current_attendees_count"))
                      (hField ev "max_capacity") = true
                  · have hb : verifyTicketBody iss now tokArg deviceKey time s =
                        ⟨.error .eventFull,
                         kvSet s ("lock:" ++ c.ticket_id) c.ticket_id,
                         some c.ticket_id⟩ := by
                      unfold verifyTicketBody
                      rw [hev, htok]
                      simp [h1, h2, h3, h4, h5, h6, hcap, kvGet_counter_kvSet_lock]
                    rw [hb]
                    exact ⟨rfl, kvGet_counter_kvSet_lock s _ _⟩
                  · by_cases hre : ((hGetAllS s ("ticket:" ++ c.ticket_id)).getD []).isEmpty = true
                    · exfalso
                      unfold verifyTicketBody at h
                      rw [hev, htok] at h
                      simp [h1, h2, h3, h4, h5, h6, hcap, hre,
                        kvGet_counter_kvSet_lock, hGetAllS_kvSet] at h
                    · by_cases hst : jrGet (((hGetAllS s ("ticket:" ++ c.ticket_id)).getD []).map
                          (fun p => (p.1, JSVal.str p.2))) "status" = JSVal.str "valid"
                      · by_cases hes : jrGet (((hGetAllS s ("ticket:" ++ c.ticket_id)).getD []).map
                            (fun p => (p.1, JSVal.str p.2))) "entry_status" = JSVal.str "in"
                        · have hb : verifyTicketBody iss now tokArg deviceKey time s =
                              ⟨.error .alreadyInside,
                               kvSet s ("lock:" ++ c.ticket_id) c.ticket_id,
                               some c.ticket_id⟩ := by
                            unfold verifyTicketBody
                            rw [hev, htok]
                            simp [h1, h2, h3, h4, h5, h6, hcap, hre, hst, hes,
                              kvGet_counter_kvSet_lock, hGetAllS_kvSet]
                          rw [hb]
                          exact ⟨rfl, kvGet_counter_kvSet_lock s _ _⟩
                        · by_cases hme : jsGE (jrGet (((hGetAllS s ("ticket:" ++ c.ticket_id)).getD []).map
                              (fun p => (p.1, JSVal.str p.2))) "entry_count")
                              (hField ev "max_entries") = true
                          · have hb : verifyTicketBody iss now tokArg deviceKey time s =
                                ⟨.error .maxEntriesReached,
                                 kvSet s ("lock:" ++ c.ticket_id) c.ticket_id,
                                 some c.ticket_id⟩ := by
                              unfold verifyTicketBody
                              rw [hev, htok]
                              simp [h1, h2, h3, h4, h5, h6, hcap, hre, hst, hes, hme,
                                kvGet_counter_kvSet_lock, hGetAllS_kvSet]
                            rw [hb]
                            exact ⟨rfl, kvGet_counter_kvSet_lock s _ _⟩
                          · exfalso
                            unfold verifyTicketBody at h
                            rw [hev, htok] at h
                            simp [h1, h2, h3, h4, h5, h6, hcap, hre, hst, hes, hme,
                              kvGet_counter_kvSet_lock, hGetAllS_kvSet] at h
                      · have hb : verifyTicketBody iss now tokArg deviceKey time s =
                            ⟨.error .ticketInvalidOrRevoked,
                             kvSet s ("lock:" ++ c.ticket_id) c.ticket_id,
                             some c.ticket_id⟩ := by
                          unfold verifyTicketBody
                          rw [hev, htok]
                          simp [h1, h2, h3, h4, h5, h6, hcap, hre, hst,
                            kvGet_counter_kvSet_lock, hGetAllS_kvSet]
                        rw [hb]
                        exact ⟨rfl, kvGet_counter_kvSet_lock s _ _⟩
          · have hb : verifyTicketBody iss now tokArg deviceKey time s =
                ⟨.error .eventMismatch, s, some c.ticket_id⟩ := by
              unfold verifyTicketBody
              rw [hev, htok]
              simp [h1, h2, h3]
            rw [hb]
            exact ⟨rfl, rfl⟩
      · have hb : verifyTicketBody iss now tokArg deviceKey time s =
            ⟨.error .issuerMismatch, s, some c.ticket_id⟩ := by
          unfold verifyTicketBody
          rw [hev, htok]
          simp [h1]
        rw [hb]
        exact ⟨rfl, rfl⟩

/-- C7: any verification attempt that terminates in a typed rejection
leaves every hash key — in particular every `ticket:<ticket_id>` record
and the current event — and the stored AttendeeCounter exactly as they
were immediately before the attempt. -/
theorem typed_rejection_preserves_tickets_and_counter
    (iss : String) (now : Int) (tokArg : TokenArg) (deviceKey time : JSVal)
    (s : Store) (e : VErr)
    (h : (verifyTicket iss now tokArg deviceKey time s).1 = .error e) :
    (∀ k, hGetAllS (verifyTicket iss now tokArg deviceKey time s).2 k = hGetAllS s k) ∧
    kvGet (verifyTicket iss now tokArg deviceKey time s).2 "current_attendees_count" =
      kvGet s "current_attendees_count" := by
  have hres : (verifyTicketBody iss now tokArg deviceKey time s).result = .error e := by
    unfold verifyTicket finallyRelease at h
    rcases hd : (verifyTicketBody iss now tokArg deviceKey time s).decoded with _ | tid
    · rw [hd] at h
      exact h
    · rw [hd] at h
      exact h
  obtain ⟨hh, hc⟩ := body_error_frame iss now tokArg deviceKey time s e hres
  unfold verifyTicket finallyRelease
  rcases hd : (verifyTicketBody iss now tokArg deviceKey time s).decoded with _ | tid
  · simp only [hd]
    refine ⟨fun k => ?_, hc⟩
    show alGet (verifyTicketBody iss now tokArg deviceKey time s).store.hashes k =
      alGet s.hashes k
    rw [hh]
  · simp only [hd]
    refine ⟨fun k => ?_, ?_⟩
    · show alGet (verifyTicketBody iss now tokArg deviceKey time s).store.hashes k =
        alGet s.hashes k
      rw [hh]
    · exact (kvGet_counter_kvDel_lock _ _).trans hc

/-- Witness for C7: an attempt rejected with TokenExpired changes neither
the ticket hashes nor the counter of the capacity-100 store. -/
theorem typed_rejection_preserves_tickets_and_counter_witness :
    (verifyTicket "iss1" 100 (.tok .expiredTok) (.str "D1") (.str "10") storeCap100).1 =
      .error .tokenExpired ∧
    ((∀ k, hGetAllS (verifyTicket "iss1" 100 (.tok .expiredTok) (.str "D1") (.str "10")
        storeCap100).2 k = hGetAllS storeCap100 k) ∧
     kvGet (verifyTicket "iss1" 100 (.tok .expiredTok) (.str "D1") (.str "10")
        storeCap100).2 "current_attendees_count" =
       kvGet storeCap100 "current_attendees_count") :=
  ⟨by decide,
   typed_rejection_preserves_tickets_and_counter "iss1" 100 (.tok .expiredTok)
     (.str "D1") (.str "10") storeCap100 .tokenExpired (by decide)⟩

/-- C8: when `verifyTicket` runs while `lock:<ticket_id>` is already
present and every check up to the lock check passes, the attempt is
rejected with ConcurrentProcessing — and the `finally` clause then deletes
`lock:<ticket_id>`, a lock this attempt never created, so the concurrent
holder's lock is destroyed rather than left in place. -/
theorem concurrent_rejection_deletes_preexisting_lock
    (iss : String) (now : Int) (c : Claims) (deviceKey time : JSVal) (s : Store)
    (ev : List (String × String)) (v : String)
    (hEv : hGetAllS s "current_event" = some ev)
    (hIss : c.issuer = iss)
    (hExp : ¬ c.valid_until < now)
    (hId : alGet ev "id" = some c.event_id)
    (hBl : kvGet s ("blacklist:" ++ c.ticket_id) = none)
    (hRv : kvGet s ("revoked:" ++ c.ticket_id) = none)
    (hLk : kvGet s ("lock:" ++ c.ticket_id) = some v)
    (hv : v ≠ "") :
    (verifyTicket iss now (.tok (.signed c)) deviceKey time s).1 =
      .error .concurrentProcessing ∧
    kvGet (verifyTicket iss now (.tok (.signed c)) deviceKey time s).2
      ("lock:" ++ c.ticket_id) = none := by
  have hbody : verifyTicketBody iss now (.tok (.signed c)) deviceKey time s =
      ⟨.error .concurrentProcessing, s, some c.ticket_id⟩ := by
    unfold verifyTicketBody
    rw [hEv]
    simp [verifyToken, hIss, hExp, hId, hBl, hRv, hLk, truthy, hv]
  unfold verifyTicket
  rw [hbody]
  exact ⟨rfl, kvGet_kvDel_self _ _⟩

/-- Witness for C8: a pre-existing `lock:T1` makes the attempt fail with
ConcurrentProcessing, and the lock is gone afterwards. -/
theorem concurrent_rejection_deletes_preexisting_lock_witness :
    kvGet heldLockStoreC8 ("lock:" ++ "T1") = some "T1" ∧
    ((verifyTicket "iss1" 100 (.tok (.signed ⟨"T1", "E1", "iss1", 200⟩))
        (.str "D1") (.str "10") heldLockStoreC8).1 = .error .concurrentProcessing ∧
     kvGet (verifyTicket "iss1" 100 (.tok (.signed ⟨"T1", "E1", "iss1", 200⟩))
        (.str "D1") (.str "10") heldLockStoreC8).2 ("lock:" ++ "T1") = none) :=
  ⟨by decide,
   concurrent_rejection_deletes_preexisting_lock "iss1" 100 ⟨"T1", "E1", "iss1", 200⟩
     (.str "D1") (.str "10") heldLockStoreC8
     [("id", "E1"), ("name", "GALA"), ("max_capacity", "100"), ("validity", "2099")]
     "T1" (by decide) rfl (by decide) (by decide) (by decide) (by decide)
     (by decide) (by decide)⟩


end Turnstile
